import Mathlib

/-!
Verification of the shape-to-mesh tessellation core of `bevy_prototype_lyon`
(`src/basic_shapes.rs`), as a shallow embedding.

Coordinates are modelled as rationals (the source uses `f32`; none of the
verified properties depend on floating-point rounding).  The external lyon
tessellation engine is modelled as an abstract record of routine fields, per
the external-interface contract of the specification; each `generate_sprite`
translation additionally records a trace of the engine invocations it makes,
so that statements about which engine slot and which routine was called, and
with which arguments, can be phrased about the trace.
-/

namespace BevyLyon

/-- A lyon 2D point (`lyon_tessellation::math::Point`). -/
structure Point where
  x : ℚ
  y : ℚ
deriving DecidableEq, Repr

/-- A lyon 2D vector (`lyon_tessellation::math::Vector`). -/
structure LVector where
  x : ℚ
  y : ℚ
deriving DecidableEq, Repr

/-- A lyon `Size` (width and height of a rectangle). -/
structure Size where
  width : ℚ
  height : ℚ
deriving DecidableEq, Repr

/-- A lyon `Rect`: an origin point together with a size. -/
structure LRect where
  origin : Point
  size : Size
deriving DecidableEq, Repr

/-- A lyon angle. Modelled by its radian measure. -/
structure Angle where
  radians : ℚ
deriving DecidableEq, Repr

/-- `Angle::zero()`. -/
def Angle.zero : Angle := ⟨0⟩

/-- Lyon path winding. -/
inductive Winding where
  | Positive
  | Negative
deriving DecidableEq, Repr

/-- A lyon `Polygon`: an ordered point list and a closed flag. -/
structure LPolygon where
  points : List Point
  closed : Bool
deriving DecidableEq, Repr

/-- A bevy `Vec2`. -/
structure Vec2 where
  x : ℚ
  y : ℚ
deriving DecidableEq, Repr

/-- A bevy `Vec3`. -/
structure Vec3 where
  x : ℚ
  y : ℚ
  z : ℚ
deriving DecidableEq, Repr

/-- Modelled from the spec: the conversion helper `ToLyonPoint` for `Vec2`
(the repository file `conversions.rs` is not under `src/`); the spec says the
resolver converts its typed parameters into the path representation the
external tessellator expects, so this is the identity on coordinates. -/
def Vec2.to_lyon_point (v : Vec2) : Point := ⟨v.x, v.y⟩

/-- Modelled from the spec: the conversion helper `ToLyonVector` for `Vec2`
(the repository file `conversions.rs` is not under `src/`). -/
def Vec2.to_lyon_vector (v : Vec2) : LVector := ⟨v.x, v.y⟩

/-- Modelled from the spec: a bevy `Transform` with translation, a rotation
component and a scale component (rotation modelled by its quaternion data,
irrelevant to the core, which only reads `translation`). -/
structure Transform where
  translation : Vec3
  rotationData : Vec3
  scale : Vec3
deriving DecidableEq, Repr

/-- Fill tessellation options; opaque numeric configuration passed through
unchanged to the external engine. -/
structure FillOptions where
  tolerance : ℚ
deriving DecidableEq, Repr

/-- Stroke tessellation options; opaque numeric configuration passed through
unchanged to the external engine. -/
structure StrokeOptions where
  tolerance : ℚ
  line_width : ℚ
deriving DecidableEq, Repr

/-- Modelled from the spec: the two-variant `TessellationMode` of the
repository root module (not under `src/`): exactly one of `Fill(options)` or
`Stroke(options)` is active per conversion call. -/
inductive TessellationMode where
  | Fill (options : FillOptions)
  | Stroke (options : StrokeOptions)
deriving DecidableEq, Repr

/-- A vertex emitted by the external fill tessellator (`FillVertex`); the
core only reads its position. -/
structure FillVertex where
  position : Point
deriving DecidableEq, Repr

/-- A vertex emitted by the external stroke tessellator (`StrokeVertex`); the
core only reads its position. -/
structure StrokeVertex where
  position : Point
deriving DecidableEq, Repr

/-- An opaque tessellation-engine error (`TessellationError`). -/
structure TessError where
  code : ℕ
deriving DecidableEq, Repr

/-- The raw output of one external tessellation routine invocation: the
emitted vertices and the emitted triangle indices, in emission order. -/
structure TessOut (V : Type) where
  vertices : List V
  indices : List ℕ
deriving DecidableEq, Repr

/-- Modelled from the spec: the external fill tessellation engine
(`lyon_tessellation::FillTessellator`), a black-box capability with one
entry point per shape kind; each call either produces output or fails. -/
structure FillTess where
  tessellate_rectangle : LRect → FillOptions → Except TessError (TessOut FillVertex)
  tessellate_circle : Point → ℚ → FillOptions → Except TessError (TessOut FillVertex)
  tessellate_ellipse :
    Point → LVector → Angle → Winding → FillOptions → Except TessError (TessOut FillVertex)
  tessellate_polygon : LPolygon → FillOptions → Except TessError (TessOut FillVertex)

/-- Modelled from the spec: the external stroke tessellation engine
(`lyon_tessellation::StrokeTessellator`). -/
structure StrokeTess where
  tessellate_rectangle : LRect → StrokeOptions → Except TessError (TessOut StrokeVertex)
  tessellate_circle : Point → ℚ → StrokeOptions → Except TessError (TessOut StrokeVertex)
  tessellate_ellipse :
    Point → LVector → Angle → Winding → StrokeOptions → Except TessError (TessOut StrokeVertex)
  tessellate_polygon : LPolygon → StrokeOptions → Except TessError (TessOut StrokeVertex)

/-- Modelled from the spec: the `Tessellator` handle of the repository root
module (not under `src/`): it holds at most one live fill-engine instance and
at most one live stroke-engine instance. -/
structure Tessellator where
  fill : Option FillTess
  stroke : Option StrokeTess

/-- A 3-component vertex position, as produced by the vertex-constructor
closures `[x, y, 0.0]`. -/
structure Vertex3 where
  x : ℚ
  y : ℚ
  z : ℚ
deriving DecidableEq, Repr

/-- `lyon_tessellation::VertexBuffers`: a vertex list and an index list. -/
structure VertexBuffers where
  vertices : List Vertex3
  indices : List ℕ
deriving DecidableEq, Repr

/-- `VertexBuffers::new()`: the empty buffer pair. -/
def VertexBuffers.new : VertexBuffers := ⟨[], []⟩

/-- `BuffersBuilder`: appends one tessellation invocation output into a
vertex buffer, mapping each emitted vertex through the given vertex
constructor and offsetting emitted indices by the number of vertices already
present. -/
def buffersBuild {V : Type} (buf : VertexBuffers) (ctor : V → Vertex3)
    (out : TessOut V) : VertexBuffers :=
  ⟨buf.vertices ++ out.vertices.map ctor,
   buf.indices ++ out.indices.map (· + buf.vertices.length)⟩

/-- A material handle; opaque to the core. -/
structure MaterialHandle where
  id : ℕ
deriving DecidableEq, Repr

/-- Modelled from the spec: the Sprite Assembler output (`SpriteBundle`): a
renderable unit assembled from the completed geometry buffer, the original
material handle and the placement offset. -/
structure SpriteBundle where
  material : MaterialHandle
  geometry : VertexBuffers
  translation : Vec3
deriving DecidableEq, Repr

/-- Modelled from the spec: `create_sprite` (repository root module, not
under `src/`): takes a completed Geometry Buffer plus a material handle and a
placement offset and produces a renderable unit, passing each through
untouched. -/
def create_sprite (material : MaterialHandle) (geometry : VertexBuffers)
    (translation : Vec3) : SpriteBundle :=
  ⟨material, geometry, translation⟩

/-- The fatal outcomes of a conversion call: an `unwrap` on an absent engine
slot, or an `unwrap` on a failed external tessellation call. -/
inductive Panic where
  | slotMissing
  | tessellationFailed (e : TessError)
deriving DecidableEq, Repr

/-- One recorded invocation of an external tessellation routine, with the
engine slot used, the routine, and every argument passed. -/
inductive EngineCall where
  | fillRect (r : LRect) (options : FillOptions)
  | strokeRect (r : LRect) (options : StrokeOptions)
  | fillCircle (center : Point) (radius : ℚ) (options : FillOptions)
  | strokeCircle (center : Point) (radius : ℚ) (options : StrokeOptions)
  | fillEllipse (center : Point) (radii : LVector) (angle : Angle) (w : Winding)
      (options : FillOptions)
  | strokeEllipse (center : Point) (radii : LVector) (angle : Angle) (w : Winding)
      (options : StrokeOptions)
  | fillPolygon (points : List Point) (closed : Bool) (options : FillOptions)
  | strokePolygon (points : List Point) (closed : Bool) (options : StrokeOptions)
deriving DecidableEq, Repr

/-- Whether a recorded engine call used the fill engine slot. -/
def EngineCall.usesFill : EngineCall → Bool
  | .fillRect _ _ => true
  | .fillCircle _ _ _ => true
  | .fillEllipse _ _ _ _ _ => true
  | .fillPolygon _ _ _ => true
  | _ => false

/-- Whether a recorded engine call used the stroke engine slot. -/
def EngineCall.usesStroke : EngineCall → Bool
  | .strokeRect _ _ => true
  | .strokeCircle _ _ _ => true
  | .strokeEllipse _ _ _ _ _ => true
  | .strokePolygon _ _ _ => true
  | _ => false

/-- The outcome of one `generate_sprite` call: the sprite (or the panic that
aborted the call) together with the trace of external engine invocations
made during the call. -/
structure GSResult where
  result : Except Panic SpriteBundle
  trace : List EngineCall
deriving Repr

/-- `RectangleOrigin`: where the origin, or pivot of the `Rectangle` should
be positioned. -/
inductive RectangleOrigin where
  | Center
  | BottomLeft
  | BottomRight
  | TopRight
  | TopLeft
deriving DecidableEq, Repr

/-- `RectangleShape`. -/
structure RectangleShape where
  width : ℚ
  height : ℚ
  origin : RectangleOrigin
deriving DecidableEq, Repr

/-- `CircleShape`. -/
structure CircleShape where
  radius : ℚ
  center : Vec2
deriving DecidableEq, Repr

/-- `EllipseShape`. -/
structure EllipseShape where
  radii : Vec2
  center : Vec2
deriving DecidableEq, Repr

/-- `PolygonShape`. -/
structure PolygonShape where
  points : List Vec2
  closed : Bool
deriving DecidableEq, Repr

/-- The origin match of `RectangleShape::generate_sprite`: selects the
corner-anchor offset from the origin enum. -/
def RectangleShape.anchor (s : RectangleShape) : Point :=
  match s.origin with
  | .Center => Point.mk (-s.width / 2) (-s.height / 2)
  | .BottomLeft => Point.mk 0 0
  | .BottomRight => Point.mk (-s.width) 0
  | .TopRight => Point.mk (-s.width) (-s.height)
  | .TopLeft => Point.mk 0 (-s.height)

/-- The fill vertex-constructor closure of `RectangleShape::generate_sprite`:
`|vertex: FillVertex| [vertex.position().x, vertex.position().y, 0.0]`. -/
def rectangleFillCtor (vertex : FillVertex) : Vertex3 :=
  ⟨vertex.position.x, vertex.position.y, 0⟩

/-- The stroke vertex-constructor closure of
`RectangleShape::generate_sprite`. -/
def rectangleStrokeCtor (vertex : StrokeVertex) : Vertex3 :=
  ⟨vertex.position.x, vertex.position.y, 0⟩

/-- The fill vertex-constructor closure of `CircleShape::generate_sprite`. -/
def circleFillCtor (vertex : FillVertex) : Vertex3 :=
  ⟨vertex.position.x, vertex.position.y, 0⟩

/-- The stroke vertex-constructor closure of `CircleShape::generate_sprite`. -/
def circleStrokeCtor (vertex : StrokeVertex) : Vertex3 :=
  ⟨vertex.position.x, vertex.position.y, 0⟩

/-- The fill vertex-constructor closure of `EllipseShape::generate_sprite`. -/
def ellipseFillCtor (vertex : FillVertex) : Vertex3 :=
  ⟨vertex.position.x, vertex.position.y, 0⟩

/-- The stroke vertex-constructor closure of
`EllipseShape::generate_sprite`. -/
def ellipseStrokeCtor (vertex : StrokeVertex) : Vertex3 :=
  ⟨vertex.position.x, vertex.position.y, 0⟩

/-- The fill vertex-constructor closure of `PolygonShape::generate_sprite`. -/
def polygonFillCtor (vertex : FillVertex) : Vertex3 :=
  ⟨vertex.position.x, vertex.position.y, 0⟩

/-- The stroke vertex-constructor closure of
`PolygonShape::generate_sprite`. -/
def polygonStrokeCtor (vertex : StrokeVertex) : Vertex3 :=
  ⟨vertex.position.x, vertex.position.y, 0⟩

/-- `RectangleShape::generate_sprite`: creates a fresh empty geometry buffer,
computes the origin-dependent anchor, dispatches on the tessellation mode to
the matching engine slot (`unwrap` on the slot and on the tessellation
result), tessellates the rectangle `Rect::new(origin, Size::new(w, h))`
through the vertex-constructor closure, and hands the geometry to
`create_sprite` with the transform translation. -/
def RectangleShape.generate_sprite (s : RectangleShape)
    (material : MaterialHandle) (tessellator : Tessellator)
    (mode : TessellationMode) (transform : Transform) : GSResult :=
  let geometry := VertexBuffers.new
  let origin := s.anchor
  match mode with
  | .Fill options =>
    match tessellator.fill with
    | none => ⟨.error .slotMissing, []⟩
    | some eng =>
      let call := EngineCall.fillRect ⟨origin, ⟨s.width, s.height⟩⟩ options
      match eng.tessellate_rectangle ⟨origin, ⟨s.width, s.height⟩⟩ options with
      | .error e => ⟨.error (.tessellationFailed e), [call]⟩
      | .ok out =>
        let geometry := buffersBuild geometry rectangleFillCtor out
        ⟨.ok (create_sprite material geometry transform.translation), [call]⟩
  | .Stroke options =>
    match tessellator.stroke with
    | none => ⟨.error .slotMissing, []⟩
    | some eng =>
      let call := EngineCall.strokeRect ⟨origin, ⟨s.width, s.height⟩⟩ options
      match eng.tessellate_rectangle ⟨origin, ⟨s.width, s.height⟩⟩ options with
      | .error e => ⟨.error (.tessellationFailed e), [call]⟩
      | .ok out =>
        let geometry := buffersBuild geometry rectangleStrokeCtor out
        ⟨.ok (create_sprite material geometry transform.translation), [call]⟩

/-- `CircleShape::generate_sprite`. -/
def CircleShape.generate_sprite (s : CircleShape)
    (material : MaterialHandle) (tessellator : Tessellator)
    (mode : TessellationMode) (transform : Transform) : GSResult :=
  let geometry := VertexBuffers.new
  match mode with
  | .Fill options =>
    match tessellator.fill with
    | none => ⟨.error .slotMissing, []⟩
    | some eng =>
      let call := EngineCall.fillCircle s.center.to_lyon_point s.radius options
      match eng.tessellate_circle s.center.to_lyon_point s.radius options with
      | .error e => ⟨.error (.tessellationFailed e), [call]⟩
      | .ok out =>
        let geometry := buffersBuild geometry circleFillCtor out
        ⟨.ok (create_sprite material geometry transform.translation), [call]⟩
  | .Stroke options =>
    match tessellator.stroke with
    | none => ⟨.error .slotMissing, []⟩
    | some eng =>
      let call := EngineCall.strokeCircle s.center.to_lyon_point s.radius options
      match eng.tessellate_circle s.center.to_lyon_point s.radius options with
      | .error e => ⟨.error (.tessellationFailed e), [call]⟩
      | .ok out =>
        let geometry := buffersBuild geometry circleStrokeCtor out
        ⟨.ok (create_sprite material geometry transform.translation), [call]⟩

/-- `EllipseShape::generate_sprite`: tessellates the ellipse with the fixed
arguments `Angle::zero()` and `Winding::Positive`. -/
def EllipseShape.generate_sprite (s : EllipseShape)
    (material : MaterialHandle) (tessellator : Tessellator)
    (mode : TessellationMode) (transform : Transform) : GSResult :=
  let geometry := VertexBuffers.new
  match mode with
  | .Fill options =>
    match tessellator.fill with
    | none => ⟨.error .slotMissing, []⟩
    | some eng =>
      let call := EngineCall.fillEllipse s.center.to_lyon_point
        s.radii.to_lyon_vector Angle.zero .Positive options
      match eng.tessellate_ellipse s.center.to_lyon_point s.radii.to_lyon_vector
          Angle.zero .Positive options with
      | .error e => ⟨.error (.tessellationFailed e), [call]⟩
      | .ok out =>
        let geometry := buffersBuild geometry ellipseFillCtor out
        ⟨.ok (create_sprite material geometry transform.translation), [call]⟩
  | .Stroke options =>
    match tessellator.stroke with
    | none => ⟨.error .slotMissing, []⟩
    | some eng =>
      let call := EngineCall.strokeEllipse s.center.to_lyon_point
        s.radii.to_lyon_vector Angle.zero .Positive options
      match eng.tessellate_ellipse s.center.to_lyon_point s.radii.to_lyon_vector
          Angle.zero .Positive options with
      | .error e => ⟨.error (.tessellationFailed e), [call]⟩
      | .ok out =>
        let geometry := buffersBuild geometry ellipseStrokeCtor out
        ⟨.ok (create_sprite material geometry transform.translation), [call]⟩

/-- `PolygonShape::generate_sprite`: converts the point list to lyon points,
builds the `Polygon` value with the closed flag, and tessellates it. -/
def PolygonShape.generate_sprite (s : PolygonShape)
    (material : MaterialHandle) (tessellator : Tessellator)
    (mode : TessellationMode) (transform : Transform) : GSResult :=
  let geometry := VertexBuffers.new
  let points := s.points.map Vec2.to_lyon_point
  let polygon : LPolygon := ⟨points, s.closed⟩
  match mode with
  | .Fill options =>
    match tessellator.fill with
    | none => ⟨.error .slotMissing, []⟩
    | some eng =>
      let call := EngineCall.fillPolygon polygon.points polygon.closed options
      match eng.tessellate_polygon polygon options with
      | .error e => ⟨.error (.tessellationFailed e), [call]⟩
      | .ok out =>
        let geometry := buffersBuild geometry polygonFillCtor out
        ⟨.ok (create_sprite material geometry transform.translation), [call]⟩
  | .Stroke options =>
    match tessellator.stroke with
    | none => ⟨.error .slotMissing, []⟩
    | some eng =>
      let call := EngineCall.strokePolygon polygon.points polygon.closed options
      match eng.tessellate_polygon polygon options with
      | .error e => ⟨.error (.tessellationFailed e), [call]⟩
      | .ok out =>
        let geometry := buffersBuild geometry polygonStrokeCtor out
        ⟨.ok (create_sprite material geometry transform.translation), [call]⟩

/-- Modelled from the spec: the closed sum of the shape kinds implementing
the `ShapeSprite` capability (per the spec, shape-kind polymorphism is a
closed set dispatched through one contract). -/
inductive Shape where
  | rect (s : RectangleShape)
  | circle (s : CircleShape)
  | ellipse (s : EllipseShape)
  | polygon (s : PolygonShape)

/-- Dynamic dispatch of `generate_sprite` over the shape kinds, as performed
through the boxed `ShapeSprite` value held by a `ShapeDescriptor`. -/
def Shape.generate_sprite : Shape → MaterialHandle → Tessellator →
    TessellationMode → Transform → GSResult
  | .rect s => s.generate_sprite
  | .circle s => s.generate_sprite
  | .ellipse s => s.generate_sprite
  | .polygon s => s.generate_sprite

/-- The minimal corner of a lyon rectangle (for nonnegative sizes). -/
def LRect.spanMin (r : LRect) : Point := r.origin

/-- The maximal corner of a lyon rectangle (for nonnegative sizes). -/
def LRect.spanMax (r : LRect) : Point :=
  ⟨r.origin.x + r.size.width, r.origin.y + r.size.height⟩

/-- A stub fill engine producing empty output; a concrete instantiation of
the external-engine contract used to evaluate the translations. -/
def stubFill : FillTess :=
  ⟨fun _ _ => .ok ⟨[], []⟩, fun _ _ _ => .ok ⟨[], []⟩,
   fun _ _ _ _ _ => .ok ⟨[], []⟩, fun _ _ => .ok ⟨[], []⟩⟩

/-- A stub stroke engine producing empty output. -/
def stubStroke : StrokeTess :=
  ⟨fun _ _ => .ok ⟨[], []⟩, fun _ _ _ => .ok ⟨[], []⟩,
   fun _ _ _ _ _ => .ok ⟨[], []⟩, fun _ _ => .ok ⟨[], []⟩⟩

/-- The common point-to-vertex mapping computed by every vertex-constructor
closure: `(x, y) ↦ (x, y, 0)`. -/
def vertexOfPoint (p : Point) : Vertex3 := ⟨p.x, p.y, 0⟩

/-- A stub fill engine emitting one triangle, used to evaluate the
translations on nonempty output. -/
def stubFillTri : FillTess :=
  ⟨fun _ _ => .ok ⟨[⟨⟨0, 0⟩⟩, ⟨⟨1, 0⟩⟩, ⟨⟨0, 1⟩⟩], [0, 1, 2]⟩,
   fun _ _ _ => .ok ⟨[⟨⟨0, 0⟩⟩, ⟨⟨1, 0⟩⟩, ⟨⟨0, 1⟩⟩], [0, 1, 2]⟩,
   fun _ _ _ _ _ => .ok ⟨[⟨⟨0, 0⟩⟩, ⟨⟨1, 0⟩⟩, ⟨⟨0, 1⟩⟩], [0, 1, 2]⟩,
   fun _ _ => .ok ⟨[⟨⟨0, 0⟩⟩, ⟨⟨1, 0⟩⟩, ⟨⟨0, 1⟩⟩], [0, 1, 2]⟩⟩

/-- The calling frame of a `generate_sprite` call: the source signature takes
the shape by immutable reference (`&self`) and the tessellator by mutable
reference, so the state-passing translation of one call returns the borrowed
shape (unchanged — the body contains no write through `self`), the
tessellator handle as left by the call, and the call result. -/
def Shape.generate_sprite_frame (sh : Shape) (mat : MaterialHandle)
    (t : Tessellator) (mode : TessellationMode) (tr : Transform) :
    Shape × Tessellator × GSResult :=
  (sh, t, Shape.generate_sprite sh mat t mode tr)

/-- C1: for every width `w`, height `h` and `RectangleOrigin` variant, the
rectangle passed to the tessellator by `RectangleShape::generate_sprite` (the
same in fill and stroke mode) has size `(w, h)` and spans exactly the box of
the per-origin table: `Center` spans `[-w/2,-h/2]` to `[w/2,h/2]`,
`BottomLeft` spans `[0,0]` to `[w,h]`, `BottomRight` spans `[-w,0]` to
`[0,h]`, `TopRight` spans `[-w,-h]` to `[0,0]`, `TopLeft` spans `[0,-h]` to
`[w,0]`; its corner anchor is the computed offset, and for positive `w`, `h`
distinct origin variants compute distinct anchors. -/
theorem C1_rectangle_origin_box (w h : ℚ) (o : RectangleOrigin)
    (mat : MaterialHandle) (tr : Transform) (feng : FillTess) (seng : StrokeTess)
    (ost : Option StrokeTess) (ofl : Option FillTess)
    (fo : FillOptions) (so : StrokeOptions) :
    ∃ r : LRect,
      (Shape.generate_sprite (.rect ⟨w, h, o⟩) mat ⟨some feng, ost⟩ (.Fill fo) tr).trace
          = [.fillRect r fo]
      ∧ (Shape.generate_sprite (.rect ⟨w, h, o⟩) mat ⟨ofl, some seng⟩ (.Stroke so) tr).trace
          = [.strokeRect r so]
      ∧ r.size = ⟨w, h⟩
      ∧ r.origin = RectangleShape.anchor ⟨w, h, o⟩
      ∧ (o = .Center → r.spanMin = ⟨-w / 2, -h / 2⟩ ∧ r.spanMax = ⟨w / 2, h / 2⟩)
      ∧ (o = .BottomLeft → r.spanMin = ⟨0, 0⟩ ∧ r.spanMax = ⟨w, h⟩)
      ∧ (o = .BottomRight → r.spanMin = ⟨-w, 0⟩ ∧ r.spanMax = ⟨0, h⟩)
      ∧ (o = .TopRight → r.spanMin = ⟨-w, -h⟩ ∧ r.spanMax = ⟨0, 0⟩)
      ∧ (o = .TopLeft → r.spanMin = ⟨0, -h⟩ ∧ r.spanMax = ⟨w, 0⟩)
      ∧ (0 < w → 0 < h → ∀ o1 o2 : RectangleOrigin,
          RectangleShape.anchor ⟨w, h, o1⟩ = RectangleShape.anchor ⟨w, h, o2⟩ →
            o1 = o2) := by
  refine ⟨⟨RectangleShape.anchor ⟨w, h, o⟩, ⟨w, h⟩⟩, ?_, ?_, rfl, rfl, ?_, ?_, ?_, ?_, ?_, ?_⟩
  · cases hr : feng.tessellate_rectangle
        ⟨RectangleShape.anchor ⟨w, h, o⟩, ⟨w, h⟩⟩ fo <;>
      simp [Shape.generate_sprite, RectangleShape.generate_sprite, hr]
  · cases hr : seng.tessellate_rectangle
        ⟨RectangleShape.anchor ⟨w, h, o⟩, ⟨w, h⟩⟩ so <;>
      simp [Shape.generate_sprite, RectangleShape.generate_sprite, hr]
  · rintro rfl
    refine ⟨rfl, ?_⟩
    show (⟨-w / 2 + w, -h / 2 + h⟩ : Point) = ⟨w / 2, h / 2⟩
    have hx : -w / 2 + w = w / 2 := by ring
    have hy : -h / 2 + h = h / 2 := by ring
    rw [hx, hy]
  · rintro rfl
    constructor <;> simp [LRect.spanMin, LRect.spanMax, RectangleShape.anchor]
  · rintro rfl
    constructor <;> simp [LRect.spanMin, LRect.spanMax, RectangleShape.anchor]
  · rintro rfl
    constructor <;> simp [LRect.spanMin, LRect.spanMax, RectangleShape.anchor]
  · rintro rfl
    constructor <;> simp [LRect.spanMin, LRect.spanMax, RectangleShape.anchor]
  · intro hw hh o1 o2 heq
    cases o1 <;> cases o2 <;>
      simp_all [RectangleShape.anchor, Point.mk.injEq] <;> linarith

/-- C1 witness: concrete instantiation at `w = 2`, `h = 1`,
origin `Center`, evaluating the traced rectangle. -/
theorem C1_rectangle_origin_box_witness :
    ∃ r : LRect,
      (Shape.generate_sprite (.rect ⟨2, 1, .Center⟩) ⟨0⟩
            ⟨some stubFill, none⟩ (.Fill ⟨1⟩) ⟨⟨0, 0, 0⟩, ⟨0, 0, 0⟩, ⟨1, 1, 1⟩⟩).trace
          = [.fillRect r ⟨1⟩]
      ∧ (Shape.generate_sprite (.rect ⟨2, 1, .Center⟩) ⟨0⟩
            ⟨none, some stubStroke⟩ (.Stroke ⟨1, 1⟩) ⟨⟨0, 0, 0⟩, ⟨0, 0, 0⟩, ⟨1, 1, 1⟩⟩).trace
          = [.strokeRect r ⟨1, 1⟩]
      ∧ r.size = ⟨2, 1⟩
      ∧ r.origin = RectangleShape.anchor ⟨2, 1, .Center⟩
      ∧ (RectangleOrigin.Center = .Center →
          r.spanMin = ⟨-2 / 2, -1 / 2⟩ ∧ r.spanMax = ⟨2 / 2, 1 / 2⟩)
      ∧ (RectangleOrigin.Center = .BottomLeft → r.spanMin = ⟨0, 0⟩ ∧ r.spanMax = ⟨2, 1⟩)
      ∧ (RectangleOrigin.Center = .BottomRight → r.spanMin = ⟨-2, 0⟩ ∧ r.spanMax = ⟨0, 1⟩)
      ∧ (RectangleOrigin.Center = .TopRight → r.spanMin = ⟨-2, -1⟩ ∧ r.spanMax = ⟨0, 0⟩)
      ∧ (RectangleOrigin.Center = .TopLeft → r.spanMin = ⟨0, -1⟩ ∧ r.spanMax = ⟨2, 0⟩)
      ∧ ((0 : ℚ) < 2 → (0 : ℚ) < 1 → ∀ o1 o2 : RectangleOrigin,
          RectangleShape.anchor ⟨2, 1, o1⟩ = RectangleShape.anchor ⟨2, 1, o2⟩ →
            o1 = o2) :=
  C1_rectangle_origin_box 2 1 .Center ⟨0⟩ ⟨⟨0, 0, 0⟩, ⟨0, 0, 0⟩, ⟨1, 1, 1⟩⟩
    stubFill stubStroke none none ⟨1⟩ ⟨1, 1⟩

/-- C2: every one of the eight vertex-constructor closures (fill and stroke,
for each of the four shape kinds) maps a tessellator-emitted point `(x, y)`
to exactly the 3-component position `(x, y, 0)`; in particular the fill and
stroke closures compute the identical mapping at every call site. -/
theorem C2_vertex_constructor (p : Point) :
    rectangleFillCtor ⟨p⟩ = ⟨p.x, p.y, 0⟩
    ∧ rectangleStrokeCtor ⟨p⟩ = ⟨p.x, p.y, 0⟩
    ∧ circleFillCtor ⟨p⟩ = ⟨p.x, p.y, 0⟩
    ∧ circleStrokeCtor ⟨p⟩ = ⟨p.x, p.y, 0⟩
    ∧ ellipseFillCtor ⟨p⟩ = ⟨p.x, p.y, 0⟩
    ∧ ellipseStrokeCtor ⟨p⟩ = ⟨p.x, p.y, 0⟩
    ∧ polygonFillCtor ⟨p⟩ = ⟨p.x, p.y, 0⟩
    ∧ polygonStrokeCtor ⟨p⟩ = ⟨p.x, p.y, 0⟩ :=
  ⟨rfl, rfl, rfl, rfl, rfl, rfl, rfl, rfl⟩

/-- C4: for every shape kind, a Fill-mode conversion on a handle whose fill
slot is absent (and symmetrically for Stroke) fails fatally with the
slot-missing panic and an empty engine-call trace: no tessellation occurs, no
default is substituted, and the call does not return a sprite. -/
theorem C4_slot_missing_fatal (sh : Shape) (mat : MaterialHandle)
    (tr : Transform) (fo : FillOptions) (so : StrokeOptions)
    (ost : Option StrokeTess) (ofl : Option FillTess) :
    Shape.generate_sprite sh mat ⟨none, ost⟩ (.Fill fo) tr
        = ⟨.error .slotMissing, []⟩
    ∧ Shape.generate_sprite sh mat ⟨ofl, none⟩ (.Stroke so) tr
        = ⟨.error .slotMissing, []⟩ := by
  cases sh <;> exact ⟨rfl, rfl⟩

/-- C5: for every center and radii pair, `EllipseShape::generate_sprite`
invokes the ellipse tessellation routine with rotation angle exactly
`Angle.zero` and winding exactly `Positive`, in both fill and stroke mode,
whatever the engines, options, material and transform. -/
theorem C5_ellipse_fixed_angle_winding (s : EllipseShape) (mat : MaterialHandle)
    (tr : Transform) (feng : FillTess) (seng : StrokeTess)
    (ost : Option StrokeTess) (ofl : Option FillTess)
    (fo : FillOptions) (so : StrokeOptions) :
    (Shape.generate_sprite (.ellipse s) mat ⟨some feng, ost⟩ (.Fill fo) tr).trace
        = [.fillEllipse s.center.to_lyon_point s.radii.to_lyon_vector
            Angle.zero .Positive fo]
    ∧ (Shape.generate_sprite (.ellipse s) mat ⟨ofl, some seng⟩ (.Stroke so) tr).trace
        = [.strokeEllipse s.center.to_lyon_point s.radii.to_lyon_vector
            Angle.zero .Positive so] := by
  constructor
  · cases hr : feng.tessellate_ellipse s.center.to_lyon_point
        s.radii.to_lyon_vector Angle.zero .Positive fo <;>
      simp [Shape.generate_sprite, EllipseShape.generate_sprite, hr]
  · cases hr : seng.tessellate_ellipse s.center.to_lyon_point
        s.radii.to_lyon_vector Angle.zero .Positive so <;>
      simp [Shape.generate_sprite, EllipseShape.generate_sprite, hr]

/-- C3: for every shape kind, a Fill-mode conversion depends only on the
fill engine slot of the handle — changing the stroke slot changes nothing in
the outcome — and every engine invocation it makes uses the fill slot;
symmetrically for Stroke mode. In particular a Fill-mode call on a handle
whose stroke slot is absent cannot fail because of that absence, and vice
versa. -/
theorem C3_mode_exclusivity (sh : Shape) (mat : MaterialHandle) (tr : Transform)
    (fo : FillOptions) (so : StrokeOptions)
    (f : Option FillTess) (s1 s2 : Option StrokeTess)
    (g1 g2 : Option FillTess) (st : Option StrokeTess) :
    (Shape.generate_sprite sh mat ⟨f, s1⟩ (.Fill fo) tr
        = Shape.generate_sprite sh mat ⟨f, s2⟩ (.Fill fo) tr)
    ∧ (∀ c ∈ (Shape.generate_sprite sh mat ⟨f, s1⟩ (.Fill fo) tr).trace,
        c.usesFill = true ∧ c.usesStroke = false)
    ∧ (Shape.generate_sprite sh mat ⟨g1, st⟩ (.Stroke so) tr
        = Shape.generate_sprite sh mat ⟨g2, st⟩ (.Stroke so) tr)
    ∧ (∀ c ∈ (Shape.generate_sprite sh mat ⟨g1, st⟩ (.Stroke so) tr).trace,
        c.usesStroke = true ∧ c.usesFill = false) := by
  cases sh <;>
    refine ⟨rfl, ?_, rfl, ?_⟩ <;>
    · intro c hc
      simp only [Shape.generate_sprite, RectangleShape.generate_sprite,
        CircleShape.generate_sprite, EllipseShape.generate_sprite,
        PolygonShape.generate_sprite] at hc
      split at hc
      · simp at hc
      · split at hc <;>
          simp only [List.mem_singleton] at hc <;>
          subst hc <;>
          exact ⟨rfl, rfl⟩

/-- C3 witness: a concrete Fill-mode circle conversion on a handle with no
stroke slot; its single engine call uses the fill slot and not the stroke
slot. -/
theorem C3_mode_exclusivity_witness :
    EngineCall.usesFill (.fillCircle ⟨0, 0⟩ 1 ⟨1⟩) = true
    ∧ EngineCall.usesStroke (.fillCircle ⟨0, 0⟩ 1 ⟨1⟩) = false :=
  (C3_mode_exclusivity (.circle ⟨1, ⟨0, 0⟩⟩) ⟨0⟩
      ⟨⟨0, 0, 0⟩, ⟨0, 0, 0⟩, ⟨1, 1, 1⟩⟩ ⟨1⟩ ⟨1, 1⟩
      (some stubFill) none (some stubStroke) (some stubFill) (some stubFill)
      (some stubStroke)).2.1 (.fillCircle ⟨0, 0⟩ 1 ⟨1⟩) (by decide)

/-- C6: a polygon with an empty point list, converted in either mode with an
engine that (per the external contract) maps the empty polygon to empty
output, completes without a fault and produces an empty vertex list and an
empty index list; the empty point list is passed as-is to the engine. -/
theorem C6_empty_polygon (cl : Bool) (mat : MaterialHandle) (tr : Transform)
    (feng : FillTess) (seng : StrokeTess)
    (ost : Option StrokeTess) (ofl : Option FillTess)
    (fo : FillOptions) (so : StrokeOptions)
    (hf : feng.tessellate_polygon ⟨[], cl⟩ fo = .ok ⟨[], []⟩)
    (hs : seng.tessellate_polygon ⟨[], cl⟩ so = .ok ⟨[], []⟩) :
    Shape.generate_sprite (.polygon ⟨[], cl⟩) mat ⟨some feng, ost⟩ (.Fill fo) tr
        = ⟨.ok (create_sprite mat ⟨[], []⟩ tr.translation), [.fillPolygon [] cl fo]⟩
    ∧ Shape.generate_sprite (.polygon ⟨[], cl⟩) mat ⟨ofl, some seng⟩ (.Stroke so) tr
        = ⟨.ok (create_sprite mat ⟨[], []⟩ tr.translation), [.strokePolygon [] cl so]⟩ := by
  constructor <;>
    simp [Shape.generate_sprite, PolygonShape.generate_sprite, hf, hs,
      buffersBuild, VertexBuffers.new, create_sprite]

/-- C6 witness: the stub engines satisfy the empty-polygon contract, and the
conversion of the empty closed polygon evaluates to the empty mesh in both
modes. -/
theorem C6_empty_polygon_witness :
    stubFill.tessellate_polygon ⟨[], true⟩ ⟨1⟩ = .ok ⟨[], []⟩
    ∧ Shape.generate_sprite (.polygon ⟨[], true⟩) ⟨0⟩ ⟨some stubFill, none⟩
          (.Fill ⟨1⟩) ⟨⟨0, 0, 0⟩, ⟨0, 0, 0⟩, ⟨1, 1, 1⟩⟩
        = ⟨.ok (create_sprite ⟨0⟩ ⟨[], []⟩ ⟨0, 0, 0⟩), [.fillPolygon [] true ⟨1⟩]⟩
    ∧ Shape.generate_sprite (.polygon ⟨[], true⟩) ⟨0⟩ ⟨none, some stubStroke⟩
          (.Stroke ⟨1, 1⟩) ⟨⟨0, 0, 0⟩, ⟨0, 0, 0⟩, ⟨1, 1, 1⟩⟩
        = ⟨.ok (create_sprite ⟨0⟩ ⟨[], []⟩ ⟨0, 0, 0⟩), [.strokePolygon [] true ⟨1, 1⟩]⟩ :=
  ⟨rfl,
   (C6_empty_polygon true ⟨0⟩ ⟨⟨0, 0, 0⟩, ⟨0, 0, 0⟩, ⟨1, 1, 1⟩⟩ stubFill stubStroke
      none none ⟨1⟩ ⟨1, 1⟩ rfl rfl).1,
   (C6_empty_polygon true ⟨0⟩ ⟨⟨0, 0, 0⟩, ⟨0, 0, 0⟩, ⟨1, 1, 1⟩⟩ stubFill stubStroke
      none none ⟨1⟩ ⟨1, 1⟩ rfl rfl).2⟩

/-- Each fill vertex-constructor closure factors as the common point-to-vertex
map after the position accessor. -/
theorem fillCtor_factors :
    rectangleFillCtor = vertexOfPoint ∘ FillVertex.position
    ∧ circleFillCtor = vertexOfPoint ∘ FillVertex.position
    ∧ ellipseFillCtor = vertexOfPoint ∘ FillVertex.position
    ∧ polygonFillCtor = vertexOfPoint ∘ FillVertex.position :=
  ⟨rfl, rfl, rfl, rfl⟩

/-- Each stroke vertex-constructor closure factors as the common
point-to-vertex map after the position accessor. -/
theorem strokeCtor_factors :
    rectangleStrokeCtor = vertexOfPoint ∘ StrokeVertex.position
    ∧ circleStrokeCtor = vertexOfPoint ∘ StrokeVertex.position
    ∧ ellipseStrokeCtor = vertexOfPoint ∘ StrokeVertex.position
    ∧ polygonStrokeCtor = vertexOfPoint ∘ StrokeVertex.position :=
  ⟨rfl, rfl, rfl, rfl⟩

/-- Structure of every successful conversion: the sprite is assembled by
`create_sprite` from the material, the translation, and a geometry built by
applying the vertex constructor to some engine output over the fresh empty
buffer. -/
theorem generate_sprite_ok_structure (sh : Shape) (mat : MaterialHandle)
    (t : Tessellator) (mode : TessellationMode) (tr : Transform)
    (sb : SpriteBundle)
    (hok : (Shape.generate_sprite sh mat t mode tr).result = .ok sb) :
    ∃ out : TessOut Point,
      sb = create_sprite mat (buffersBuild VertexBuffers.new vertexOfPoint out)
        tr.translation := by
  cases sh <;> cases mode <;>
    simp only [Shape.generate_sprite, RectangleShape.generate_sprite,
      CircleShape.generate_sprite, EllipseShape.generate_sprite,
      PolygonShape.generate_sprite] at hok <;>
    split at hok
  any_goals (simp at hok; done)
  all_goals split at hok
  any_goals (simp at hok; done)
  all_goals
    rename_i out heq
    simp at hok
    subst hok
  all_goals
    first
      | exact ⟨⟨out.vertices.map FillVertex.position, out.indices⟩, by
          simp [create_sprite, buffersBuild, vertexOfPoint, List.map_map,
            rectangleFillCtor, circleFillCtor, ellipseFillCtor, polygonFillCtor,
            Function.comp]⟩
      | exact ⟨⟨out.vertices.map StrokeVertex.position, out.indices⟩, by
          simp [create_sprite, buffersBuild, vertexOfPoint, List.map_map,
            rectangleStrokeCtor, circleStrokeCtor, ellipseStrokeCtor,
            polygonStrokeCtor, Function.comp]⟩

/-- C7: the geometry buffer of a conversion call starts fresh and empty
(`VertexBuffers::new()` is the empty pair), and any successfully produced
sprite is assembled wholesale from exactly that call's tessellation output
built over the fresh empty buffer, together with the call's own material and
translation. -/
theorem C7_buffer_lifecycle (sh : Shape) (mat : MaterialHandle)
    (t : Tessellator) (mode : TessellationMode) (tr : Transform)
    (sb : SpriteBundle)
    (hok : (Shape.generate_sprite sh mat t mode tr).result = .ok sb) :
    VertexBuffers.new.vertices = []
    ∧ VertexBuffers.new.indices = []
    ∧ sb = create_sprite mat sb.geometry tr.translation
    ∧ ∃ out : TessOut Point,
        sb.geometry = buffersBuild VertexBuffers.new vertexOfPoint out := by
  obtain ⟨out, rfl⟩ := generate_sprite_ok_structure sh mat t mode tr sb hok
  exact ⟨rfl, rfl, rfl, out, rfl⟩

/-- C7 witness: a concrete fill conversion of a rectangle with a one-triangle
stub engine; the produced geometry is that triangle built over the empty
buffer. -/
theorem C7_buffer_lifecycle_witness :
    (Shape.generate_sprite (.rect ⟨2, 1, .Center⟩) ⟨0⟩ ⟨some stubFillTri, none⟩
          (.Fill ⟨1⟩) ⟨⟨0, 0, 0⟩, ⟨0, 0, 0⟩, ⟨1, 1, 1⟩⟩).result
        = .ok ⟨⟨0⟩, ⟨[⟨0, 0, 0⟩, ⟨1, 0, 0⟩, ⟨0, 1, 0⟩], [0, 1, 2]⟩, ⟨0, 0, 0⟩⟩
    ∧ (VertexBuffers.new.vertices = []
        ∧ VertexBuffers.new.indices = []
        ∧ (⟨⟨0⟩, ⟨[⟨0, 0, 0⟩, ⟨1, 0, 0⟩, ⟨0, 1, 0⟩], [0, 1, 2]⟩, ⟨0, 0, 0⟩⟩ : SpriteBundle)
            = create_sprite ⟨0⟩
              (SpriteBundle.geometry ⟨⟨0⟩, ⟨[⟨0, 0, 0⟩, ⟨1, 0, 0⟩, ⟨0, 1, 0⟩], [0, 1, 2]⟩, ⟨0, 0, 0⟩⟩)
              ⟨0, 0, 0⟩
        ∧ ∃ out : TessOut Point,
            SpriteBundle.geometry ⟨⟨0⟩, ⟨[⟨0, 0, 0⟩, ⟨1, 0, 0⟩, ⟨0, 1, 0⟩], [0, 1, 2]⟩, ⟨0, 0, 0⟩⟩
              = buffersBuild VertexBuffers.new vertexOfPoint out) :=
  ⟨rfl,
   C7_buffer_lifecycle (.rect ⟨2, 1, .Center⟩) ⟨0⟩ ⟨some stubFillTri, none⟩
     (.Fill ⟨1⟩) ⟨⟨0, 0, 0⟩, ⟨0, 0, 0⟩, ⟨1, 1, 1⟩⟩
     ⟨⟨0⟩, ⟨[⟨0, 0, 0⟩, ⟨1, 0, 0⟩, ⟨0, 1, 0⟩], [0, 1, 2]⟩, ⟨0, 0, 0⟩⟩ rfl⟩

/-- C8: the conversion call leaves the shape value unchanged: in the
state-passing frame of the call, the shape component handed back to the
caller is the input shape itself (the source takes it by `&self` and contains
no write through it), and the result component is the conversion result. -/
theorem C8_shape_immutable (sh : Shape) (mat : MaterialHandle)
    (t : Tessellator) (mode : TessellationMode) (tr : Transform) :
    (Shape.generate_sprite_frame sh mat t mode tr).1 = sh
    ∧ (Shape.generate_sprite_frame sh mat t mode tr).2.2
        = Shape.generate_sprite sh mat t mode tr :=
  ⟨rfl, rfl⟩

/-- C9: the conversion is deterministic in its inputs: two calls with the
same shape, mode, options and fresh tessellator handles holding the same
engine slots produce equal results; in particular the geometry (hence the
vertex-position list) of the produced sprites is equal. -/
theorem C9_deterministic (sh : Shape) (mat : MaterialHandle)
    (mode : TessellationMode) (tr : Transform) (t1 t2 : Tessellator)
    (hf : t1.fill = t2.fill) (hs : t1.stroke = t2.stroke) :
    Shape.generate_sprite sh mat t1 mode tr = Shape.generate_sprite sh mat t2 mode tr
    ∧ (Shape.generate_sprite sh mat t1 mode tr).result.map SpriteBundle.geometry
        = (Shape.generate_sprite sh mat t2 mode tr).result.map SpriteBundle.geometry := by
  obtain ⟨f1, s1⟩ := t1
  obtain ⟨f2, s2⟩ := t2
  have hf2 : f1 = f2 := hf
  have hs2 : s1 = s2 := hs
  subst hf2
  subst hs2
  exact ⟨rfl, rfl⟩

/-- C9 witness: two equal fresh handles at a concrete circle conversion. -/
theorem C9_deterministic_witness :
    Shape.generate_sprite (.circle ⟨1, ⟨0, 0⟩⟩) ⟨0⟩ ⟨some stubFill, some stubStroke⟩
        (.Fill ⟨1⟩) ⟨⟨0, 0, 0⟩, ⟨0, 0, 0⟩, ⟨1, 1, 1⟩⟩
      = Shape.generate_sprite (.circle ⟨1, ⟨0, 0⟩⟩) ⟨0⟩ ⟨some stubFill, some stubStroke⟩
        (.Fill ⟨1⟩) ⟨⟨0, 0, 0⟩, ⟨0, 0, 0⟩, ⟨1, 1, 1⟩⟩ :=
  (C9_deterministic (.circle ⟨1, ⟨0, 0⟩⟩) ⟨0⟩ (.Fill ⟨1⟩)
    ⟨⟨0, 0, 0⟩, ⟨0, 0, 0⟩, ⟨1, 1, 1⟩⟩ ⟨some stubFill, some stubStroke⟩
    ⟨some stubFill, some stubStroke⟩ rfl rfl).1

/-- C10: for every shape kind, only the translation component of the
transform influences the produced result: two transforms with equal
translation and arbitrary rotation and scale components give identical
conversion outcomes. -/
theorem C10_translation_only (sh : Shape) (mat : MaterialHandle)
    (t : Tessellator) (mode : TessellationMode) (tr1 tr2 : Transform)
    (h : tr1.translation = tr2.translation) :
    Shape.generate_sprite sh mat t mode tr1
      = Shape.generate_sprite sh mat t mode tr2 := by
  cases sh <;>
    simp only [Shape.generate_sprite, RectangleShape.generate_sprite,
      CircleShape.generate_sprite, EllipseShape.generate_sprite,
      PolygonShape.generate_sprite, h]

/-- C10 witness: two transforms sharing a translation but with different
rotation data and scale give the same sprite for a concrete rectangle. -/
theorem C10_translation_only_witness :
    Shape.generate_sprite (.rect ⟨2, 1, .Center⟩) ⟨0⟩ ⟨some stubFillTri, none⟩
        (.Fill ⟨1⟩) ⟨⟨1, 2, 3⟩, ⟨4, 5, 6⟩, ⟨7, 8, 9⟩⟩
      = Shape.generate_sprite (.rect ⟨2, 1, .Center⟩) ⟨0⟩ ⟨some stubFillTri, none⟩
        (.Fill ⟨1⟩) ⟨⟨1, 2, 3⟩, ⟨0, 0, 0⟩, ⟨1, 1, 1⟩⟩ :=
  C10_translation_only (.rect ⟨2, 1, .Center⟩) ⟨0⟩ ⟨some stubFillTri, none⟩
    (.Fill ⟨1⟩) ⟨⟨1, 2, 3⟩, ⟨4, 5, 6⟩, ⟨7, 8, 9⟩⟩ ⟨⟨1, 2, 3⟩, ⟨0, 0, 0⟩, ⟨1, 1, 1⟩⟩ rfl

end BevyLyon
